import Mathlib

/-!
Verification of the alx-polly polling application core
(`lib/validation.ts`, `lib/security.ts`, `app/lib/actions/poll-actions.ts`,
and the REST route variants).  Pure functions are embedded directly; the
stateful rate limiter is embedded as explicit state passing over a store
map; calls to the external data store and identity provider are embedded
as explicit parameters describing their outcome, exactly mirroring the
result shapes the TypeScript code observes.
-/

set_option maxHeartbeats 1000000

namespace Polly

/-! ## JavaScript string primitives used by `sanitizeString`

`sanitizeString` (lib/validation.ts) is
`input.trim().replace(/[<>]/g, '').replace(/javascript:/gi, '').replace(/on\w+=/gi, '')`.
We embed each `replace` as a left-to-right scan over the character list that
removes non-overlapping matches, exactly as a global JS regex replace does.
The recursions are fueled by the list length so that they are structural and
kernel-evaluable; fuel equal to the length is always sufficient because every
step consumes at least one character. -/

/-- ASCII whitespace removed by JS `String.prototype.trim`. -/
def isJsSpace (c : Char) : Bool :=
  c == ' ' || c == '\t' || c == '\n' || c == '\r' || c == '\x0b' || c == '\x0c'

/-- JS `.trim()`: drop whitespace from both ends. -/
def jsTrim (l : List Char) : List Char :=
  ((l.dropWhile isJsSpace).reverse.dropWhile isJsSpace).reverse

/-- `.replace(/[<>]/g, '')`: delete every angle bracket. -/
def removeAngles (l : List Char) : List Char :=
  l.filter (fun c => !(c == '<' || c == '>'))

/-- Does the list start with `javascript:` case-insensitively
(the 11-character pattern of `/javascript:/gi`)? -/
def jsProtoAt : List Char → Bool
  | c1 :: c2 :: c3 :: c4 :: c5 :: c6 :: c7 :: c8 :: c9 :: c10 :: c11 :: _ =>
    c1.toLower == 'j' && c2.toLower == 'a' && c3.toLower == 'v' && c4.toLower == 'a' &&
    c5.toLower == 's' && c6.toLower == 'c' && c7.toLower == 'r' && c8.toLower == 'i' &&
    c9.toLower == 'p' && c10.toLower == 't' && c11 == ':'
  | _ => false

/-- `.replace(/javascript:/gi, '')`: single left-to-right pass removing
non-overlapping case-insensitive occurrences.  On a match the 11 matched
characters are skipped (the head plus ten from the tail) and scanning resumes
after them, as JS `replace` with a global regex does. -/
def stripJsProtoF : Nat → List Char → List Char
  | 0, l => l
  | _ + 1, [] => []
  | fuel + 1, c :: cs =>
    if jsProtoAt (c :: cs) then stripJsProtoF fuel (cs.drop 10)
    else c :: stripJsProtoF fuel cs

/-- JS `\w`: ASCII letters, digits, underscore. -/
def isWordChar (c : Char) : Bool :=
  c.isAlpha || c.isDigit || c == '_'

/-- `.replace(/on\w+=/gi, '')`: at each position, a match is `on` (any case)
followed by a maximal nonempty run of word characters followed by `=`; the
match is removed and scanning resumes after the `=`. -/
def stripOnAttrF : Nat → List Char → List Char
  | 0, l => l
  | _ + 1, [] => []
  | fuel + 1, c :: cs =>
    match cs with
    | [] => [c]
    | c2 :: rest =>
      if c.toLower == 'o' && c2.toLower == 'n' then
        match rest.drop (rest.takeWhile isWordChar).length with
        | '=' :: tail =>
          if (rest.takeWhile isWordChar).isEmpty then c :: stripOnAttrF fuel cs
          else stripOnAttrF fuel tail
        | _ => c :: stripOnAttrF fuel cs
      else c :: stripOnAttrF fuel cs

/-- `sanitizeString` from lib/validation.ts: trim, strip angle brackets,
strip `javascript:`, strip `on*=` event-handler substrings, in that order. -/
def sanitizeChars (l : List Char) : List Char :=
  let t := removeAngles (jsTrim l)
  let j := stripJsProtoF t.length t
  stripOnAttrF j.length j

def sanitizeString (s : String) : String :=
  ⟨sanitizeChars s.data⟩

/-- Substring test used to state properties about sanitized output. -/
def containsSub (pat : List Char) : List Char → Bool
  | [] => pat.isEmpty
  | c :: cs => pat.isPrefixOf (c :: cs) || containsSub pat cs

def strContains (s pat : String) : Bool :=
  containsSub pat.data s.data

/-! ## Validators (lib/validation.ts) -/

/-- Hex digit as accepted by the UUID format check. -/
def isHexDigit (c : Char) : Bool :=
  c.isDigit || ('a' ≤ c && c ≤ 'f') || ('A' ≤ c && c ≤ 'F')

/-- Split a character list on `-`. -/
def splitDashF (acc : List Char) : List Char → List (List Char)
  | [] => [acc.reverse]
  | c :: cs => if c == '-' then acc.reverse :: splitDashF [] cs else splitDashF (c :: acc) cs

/-- `z.string().uuid()`: hyphenated 8-4-4-4-12 hexadecimal groups. -/
def isUuid (s : String) : Bool :=
  match splitDashF [] s.data with
  | [a, b, c, d, e] =>
    a.length == 8 && b.length == 4 && c.length == 4 && d.length == 4 && e.length == 12 &&
    a.all isHexDigit && b.all isHexDigit && c.all isHexDigit &&
    d.all isHexDigit && e.all isHexDigit
  | _ => false

structure IdValidation where
  isValid : Bool
  error : Option String
deriving DecidableEq, Repr

/-- `validatePollId` from lib/validation.ts: `pollIdSchema.parse`, returning
the zod message on failure. -/
def validatePollId (id : String) : IdValidation :=
  if isUuid id then ⟨true, none⟩ else ⟨false, some "Invalid poll ID format"⟩

structure CreatePollInput where
  question : String
  options : List String
deriving DecidableEq, Repr

/-- `sanitizePollData` from lib/validation.ts. -/
def sanitizePollData (d : CreatePollInput) : CreatePollInput :=
  ⟨sanitizeString d.question, d.options.map sanitizeString⟩

/-- Per-element checks of `createPollSchema.options`, first violated rule. -/
def optionError (o : String) : Option String :=
  if o.length < 1 then some "Option cannot be empty"
  else if o.length > 200 then some "Option must be less than 200 characters"
  else none

def firstOptionError : List String → Option String
  | [] => none
  | o :: os =>
    match optionError o with
    | some e => some e
    | none => firstOptionError os

/-- First issue raised by `createPollSchema.parse` (zod reports object fields
in declaration order: question length checks, then array size checks, then
element checks in index order). `none` means the parse succeeds. -/
def createPollFirstError (d : CreatePollInput) : Option String :=
  if d.question.length < 1 then some "Question is required"
  else if d.question.length > 500 then some "Question must be less than 500 characters"
  else if d.options.length < 2 then some "At least 2 options are required"
  else if d.options.length > 10 then some "Maximum 10 options allowed"
  else firstOptionError d.options

structure PollValidation where
  isValid : Bool
  error : Option String
  sanitizedData : Option CreatePollInput
deriving DecidableEq, Repr

/-- `validateCreatePoll` from lib/validation.ts: sanitize with
`sanitizePollData`, then `createPollSchema.parse` on the sanitized value;
on success return the sanitized object, on failure the first zod message. -/
def validateCreatePoll (d : CreatePollInput) : PollValidation :=
  let sanitized := sanitizePollData d
  match createPollFirstError sanitized with
  | some e => ⟨false, some e, none⟩
  | none => ⟨true, none, some sanitized⟩

structure VoteValidation where
  isValid : Bool
  error : Option String
deriving DecidableEq, Repr

/-- `validateVote` from lib/validation.ts: `voteSchema.parse` — pollId must be
a UUID, optionIndex a non-negative integer (the index is embedded as `Int`,
so the integrality check always passes). -/
def validateVote (pollId : String) (optionIndex : Int) : VoteValidation :=
  if !isUuid pollId then ⟨false, some "Invalid poll ID format"⟩
  else if optionIndex < 0 then ⟨false, some "Invalid option index"⟩
  else ⟨true, none⟩

/-! ## Rate limiter (lib/security.ts `checkRateLimit`)

The mutable module-level `rateLimitStore` map is embedded as an explicit
store value threaded through calls; `Date.now()` is the explicit `now`
argument. -/

structure RateRecord where
  count : Nat
  resetTime : Nat
deriving DecidableEq, Repr

abbrev RateStore := String → Option RateRecord

def RateStore.set (store : RateStore) (k : String) (r : RateRecord) : RateStore :=
  fun k2 => if k2 = k then some r else store k2

/-- `checkRateLimit(identifier, maxRequests, windowMs)`: on a missing or
expired record start a window with count 1 and allow; otherwise refuse when
`count >= maxRequests`, else increment and allow.  Returns the boolean the
TS function returns together with the updated store. -/
def checkRateLimit (store : RateStore) (now : Nat) (identifier : String)
    (maxRequests : Nat) (windowMs : Nat) : Bool × RateStore :=
  match store identifier with
  | none => (true, store.set identifier ⟨1, now + windowMs⟩)
  | some record =>
    if now > record.resetTime then (true, store.set identifier ⟨1, now + windowMs⟩)
    else if record.count ≥ maxRequests then (false, store)
    else (true, store.set identifier ⟨record.count + 1, record.resetTime⟩)

/-- A sequence of `checkRateLimit` calls for one key, one per listed time,
threading the store; returns the list of returned booleans and the final
store. -/
def rateCallSeq (key : String) (m w : Nat) : RateStore → List Nat → List Bool × RateStore
  | store, [] => ([], store)
  | store, t :: ts =>
    let r := checkRateLimit store t key m w
    let rest := rateCallSeq key m w r.2 ts
    (r.1 :: rest.1, rest.2)

/-! ## Authorization gate (lib/security.ts)

`requireAuth` wraps the external identity provider; its outcome is embedded
as the sum `AuthOutcome` (the TS result carries `user` exactly when
`success` is true).  The poll-owner lookup `select('user_id').eq('id', ...)`
is embedded as a map from poll id to the stored owner id; `none` covers both
a query error and an absent row, matching `if (error || !poll)`. -/

structure User where
  id : String
  email : String
deriving DecidableEq, Repr

inductive AuthOutcome where
  | failure (error : String)
  | success (user : User)
deriving DecidableEq, Repr

/-- The `SecurityResult` interface of lib/security.ts. -/
structure SecurityResult where
  success : Bool
  error : Option String
  user : Option User
deriving DecidableEq, Repr

/-- `requirePollOwnership(pollId)`: validate the id format, then require
authentication, then load the poll owner; "Poll not found" when absent,
"Access denied" when owned by someone else, else success with the caller. -/
def requirePollOwnership (auth : AuthOutcome) (pollOwner : String → Option String)
    (pollId : String) : SecurityResult :=
  let idValidation := validatePollId pollId
  if !idValidation.isValid then ⟨false, idValidation.error, none⟩
  else
    match auth with
    | .failure e => ⟨false, some e, none⟩
    | .success u =>
      match pollOwner pollId with
      | none => ⟨false, some "Poll not found", none⟩
      | some ownerId =>
        if ownerId ≠ u.id then ⟨false, some "Access denied", none⟩
        else ⟨true, none, some u⟩

/-- `requireAdmin()`: require authentication, then membership of the caller's
email in `process.env.ADMIN_EMAIL?.split(',') || []`.  The environment
variable is embedded as `Option String`; when it is absent the parsed list
is `[]` (in JS `undefined?.split` is `undefined`, so `|| []` applies). -/
def requireAdmin (auth : AuthOutcome) (adminEmailEnv : Option String) : SecurityResult :=
  match auth with
  | .failure e => ⟨false, some e, none⟩
  | .success u =>
    let adminEmails := (adminEmailEnv.map (fun s => s.splitOn ",")).getD []
    if !adminEmails.contains u.email then ⟨false, some "Admin access required", none⟩
    else ⟨true, none, some u⟩

/-! ## Operation handlers (app/lib/actions/poll-actions.ts)

Each handler is embedded over an environment describing the outcomes of its
external calls (rate store and clock, identity provider, data store), and
returns the handler result together with which row, if any, it inserted —
the insert happens exactly when the returned `inserted` field is `some`. -/

structure PollRow where
  user_id : String
  question : String
  options : List String
deriving DecidableEq, Repr

structure ActionResult where
  error : Option String
  inserted : Option PollRow
deriving DecidableEq, Repr

structure CreatePollEnv where
  rateStore : RateStore
  now : Nat
  clientIP : String
  auth : AuthOutcome
  insertError : Option String

/-- `createPoll(formData)`: rate-check by client IP, then `requireAuth`,
then `validateCreatePoll`, then insert the sanitized poll with
`user_id = caller.id`.  `insertError` is the (sanitized) data-store insert
failure, `none` when the insert succeeds. -/
def createPoll (env : CreatePollEnv) (question : String) (options : List String) :
    ActionResult × RateStore :=
  let rate := checkRateLimit env.rateStore env.now ("create_poll_" ++ env.clientIP) 10 300000
  if !rate.1 then (⟨some "Too many requests. Please try again later.", none⟩, rate.2)
  else
    match env.auth with
    | .failure e => (⟨some e, none⟩, rate.2)
    | .success u =>
      let validation := validateCreatePoll ⟨question, options⟩
      match validation.sanitizedData with
      | none => (⟨validation.error, none⟩, rate.2)
      | some s =>
        match env.insertError with
        | some e => (⟨some e, none⟩, rate.2)
        | none => (⟨none, some ⟨u.id, s.question, s.options⟩⟩, rate.2)

structure Poll where
  options : List String
deriving DecidableEq, Repr

structure VoteRow where
  poll_id : String
  user_id : Option String
  option_index : Int
deriving DecidableEq, Repr

structure VoteResult where
  error : Option String
  inserted : Option VoteRow
deriving DecidableEq, Repr

structure VoteEnv where
  rateStore : RateStore
  now : Nat
  polls : String → Option Poll
  user : Option User
  hasVoted : String → String → Bool
  insertError : Option String

/-- `submitVote(pollId, optionIndex)`: rate-check by poll id, `validateVote`,
fetch the poll (`none` covers both query error and absent row, matching
`if (pollError || !poll)`), re-check the option index against the fetched
options, then — only when a user is signed in — check for an existing vote
by `(pollId, user.id)`, and finally insert the vote with
`user_id = user?.id ?? null`. -/
def submitVote (env : VoteEnv) (pollId : String) (optionIndex : Int) :
    VoteResult × RateStore :=
  let rate := checkRateLimit env.rateStore env.now ("vote_" ++ pollId) 5 60000
  if !rate.1 then (⟨some "Too many votes. Please try again later.", none⟩, rate.2)
  else
    let validation := validateVote pollId optionIndex
    if !validation.isValid then (⟨validation.error, none⟩, rate.2)
    else
      match env.polls pollId with
      | none => (⟨some "Poll not found", none⟩, rate.2)
      | some poll =>
        if optionIndex < 0 ∨ (poll.options.length : Int) ≤ optionIndex then
          (⟨some "Invalid option selected", none⟩, rate.2)
        else
          let dup := match env.user with
            | some u => env.hasVoted pollId u.id
            | none => false
          if dup then (⟨some "You have already voted on this poll", none⟩, rate.2)
          else
            match env.insertError with
            | some e => (⟨some e, none⟩, rate.2)
            | none => (⟨none, some ⟨pollId, env.user.map (fun u => u.id), optionIndex⟩⟩, rate.2)

/-- The boolean produced by `createPoll`'s opening rate check. -/
def createPollRateOk (env : CreatePollEnv) : Bool :=
  (checkRateLimit env.rateStore env.now ("create_poll_" ++ env.clientIP) 10 300000).1

structure PollsResult where
  polls : List PollRow
  error : Option String
deriving DecidableEq, Repr

/-- `getUserPolls()`: `requireAuth`, then the user-scoped select; `dbError`
and `dbData` are the `{ error, data }` pair the query resolves to (the
success path returns `data ?? []`). -/
def getUserPolls (auth : AuthOutcome) (dbError : Option String)
    (dbData : Option (List PollRow)) : PollsResult :=
  match auth with
  | .failure e => ⟨[], some e⟩
  | .success _ =>
    match dbError with
    | some e => ⟨[], some e⟩
    | none => ⟨dbData.getD [], none⟩

/-- `getAllPolls()`: `requireAdmin`, then the unscoped select, with the same
result shape as `getUserPolls`. -/
def getAllPolls (auth : AuthOutcome) (adminEmailEnv : Option String)
    (dbError : Option String) (dbData : Option (List PollRow)) : PollsResult :=
  let adminResult := requireAdmin auth adminEmailEnv
  if !adminResult.success then ⟨[], adminResult.error⟩
  else
    match dbError with
    | some e => ⟨[], some e⟩
    | none => ⟨dbData.getD [], none⟩

/-! ## Helper lemmas -/

/-- Characters surviving the `javascript:` strip all come from the input. -/
theorem mem_stripJsProtoF (f : Nat) (l : List Char) (x : Char)
    (h : x ∈ stripJsProtoF f l) : x ∈ l := by
  induction f generalizing l with
  | zero => simpa [stripJsProtoF] using h
  | succ f ih =>
    cases l with
    | nil => simpa [stripJsProtoF] using h
    | cons a as =>
      rw [stripJsProtoF] at h
      by_cases hj : jsProtoAt (a :: as)
      · rw [if_pos hj] at h
        exact List.mem_cons_of_mem a (List.mem_of_mem_drop (ih _ h))
      · rw [if_neg hj] at h
        rcases List.mem_cons.mp h with h | h
        · exact h ▸ List.mem_cons_self a as
        · exact List.mem_cons_of_mem a (ih _ h)

/-- Characters surviving the `on*=` strip all come from the input. -/
theorem mem_stripOnAttrF (f : Nat) (l : List Char) (x : Char)
    (h : x ∈ stripOnAttrF f l) : x ∈ l := by
  induction f generalizing l with
  | zero => simpa [stripOnAttrF] using h
  | succ f ih =>
    match l with
    | [] => simpa [stripOnAttrF] using h
    | [c] => simpa [stripOnAttrF] using h
    | c :: c2 :: rest =>
      rw [stripOnAttrF] at h
      split at h
      · split at h
        next tail heq =>
          split at h
          · rcases List.mem_cons.mp h with h | h
            · exact h ▸ List.mem_cons_self c (c2 :: rest)
            · exact List.mem_cons_of_mem c (ih _ h)
          · have hx : x ∈ tail := ih _ h
            have hdrop : x ∈ rest.drop (rest.takeWhile isWordChar).length :=
              heq ▸ List.mem_cons_of_mem _ hx
            exact List.mem_cons_of_mem c
              (List.mem_cons_of_mem c2 (List.mem_of_mem_drop hdrop))
        next =>
          rcases List.mem_cons.mp h with h | h
          · exact h ▸ List.mem_cons_self c (c2 :: rest)
          · exact List.mem_cons_of_mem c (ih _ h)
      · rcases List.mem_cons.mp h with h | h
        · exact h ▸ List.mem_cons_self c (c2 :: rest)
        · exact List.mem_cons_of_mem c (ih _ h)

/-- Sanitized strings never contain angle brackets: the angle strip removes
them and the later strips only delete characters. -/
theorem sanitize_no_angles (s : String) :
    '<' ∉ (sanitizeString s).data ∧ '>' ∉ (sanitizeString s).data := by
  constructor <;>
  · intro hmem
    have h1 := mem_stripOnAttrF _ _ _ hmem
    have h2 := mem_stripJsProtoF _ _ _ h1
    have h3 := List.mem_filter.mp h2
    simp at h3

/-- If every option passes the element checks, the element scan reports
nothing. -/
theorem firstOptionError_eq_none (os : List String)
    (h : ∀ o ∈ os, optionError o = none) : firstOptionError os = none := by
  induction os with
  | nil => rfl
  | cons o os ih =>
    rw [firstOptionError, h o (List.mem_cons_self o os)]
    exact ih fun o2 ho2 => h o2 (List.mem_cons_of_mem o ho2)

/-- `validateCreatePoll` succeeds exactly when the schema scan of the
sanitized data reports nothing, and then returns the sanitized data. -/
theorem validateCreatePoll_eq_of_no_error (d : CreatePollInput)
    (h : createPollFirstError (sanitizePollData d) = none) :
    validateCreatePoll d = ⟨true, none, some (sanitizePollData d)⟩ := by
  simp [validateCreatePoll, h]

/-- On a schema error, `validateCreatePoll` fails carrying that message. -/
theorem validateCreatePoll_eq_of_error (d : CreatePollInput) (e : String)
    (h : createPollFirstError (sanitizePollData d) = some e) :
    validateCreatePoll d = ⟨false, some e, none⟩ := by
  simp [validateCreatePoll, h]

/-- The `sanitizedData` field is `some` exactly on success. -/
theorem validateCreatePoll_sanitizedData_isValid (d : CreatePollInput) :
    (validateCreatePoll d).sanitizedData =
      if (validateCreatePoll d).isValid then some (sanitizePollData d) else none := by
  cases hfe : createPollFirstError (sanitizePollData d) <;>
    simp [validateCreatePoll, hfe]

/-- A passing `validateVote` means the poll id has UUID shape and the index
is non-negative. -/
theorem validateVote_isValid_iff (pollId : String) (idx : Int) :
    (validateVote pollId idx).isValid = true ↔ isUuid pollId = true ∧ 0 ≤ idx := by
  unfold validateVote
  by_cases hu : isUuid pollId <;> by_cases hi : idx < 0 <;>
    simp [hu, hi] <;> omega

/-! ## Claims -/

/-- Claim C1: for an options array with two elements that sanitize to the
same string, `validateCreatePoll` is claimed to fail with a duplicate-options
error.  The code has no duplicate check: on `["Red", "Red"]` it succeeds and
the successful result carries duplicate sanitized options, contradicting the
function's own documentation ("No duplicate options allowed", "Duplicate
detection maintains data integrity"). -/
theorem C1_duplicates_accepted :
    (validateCreatePoll ⟨"What is your favorite color?", ["Red", "Red"]⟩).isValid = true
    ∧ (validateCreatePoll ⟨"What is your favorite color?", ["Red", "Red"]⟩).sanitizedData =
        some ⟨"What is your favorite color?", ["Red", "Red"]⟩
    ∧ ¬ (sanitizePollData ⟨"What is your favorite color?", ["Red", "Red"]⟩).options.Nodup := by
  refine ⟨by decide, by decide, by decide⟩

/-- Claim C6: when the parsed admin allow-list is empty — in particular when
no `ADMIN_EMAIL` is configured, the only way `split` yields an empty list —
`requireAdmin` fails with the admin-required error for every authenticated
caller: an empty allow-list means no admin exists (fail closed). -/
theorem C6_empty_admin_list_fails_closed (u : User) (adminEmailEnv : Option String)
    (hempty : (adminEmailEnv.map (fun s => s.splitOn ",")).getD [] = []) :
    requireAdmin (.success u) adminEmailEnv =
      ⟨false, some "Admin access required", none⟩ := by
  simp [requireAdmin, hempty]

theorem C6_empty_admin_list_fails_closed_witness :
    requireAdmin (.success ⟨"u1", "u1@example.com"⟩) none =
      ⟨false, some "Admin access required", none⟩ :=
  C6_empty_admin_list_fails_closed ⟨"u1", "u1@example.com"⟩ none rfl

/-- Claim C10: whenever `getUserPolls` or `getAllPolls` returns a non-null
error, the `polls` field of the result is the empty list. -/
theorem C10_error_implies_empty_polls (auth : AuthOutcome) (adminEnv : Option String)
    (dbError : Option String) (dbData : Option (List PollRow))
    (dbError2 : Option String) (dbData2 : Option (List PollRow)) :
    ((getUserPolls auth dbError dbData).error ≠ none →
      (getUserPolls auth dbError dbData).polls = [])
    ∧ ((getAllPolls auth adminEnv dbError2 dbData2).error ≠ none →
      (getAllPolls auth adminEnv dbError2 dbData2).polls = []) := by
  constructor
  · intro h
    cases auth with
    | failure e => rfl
    | success u =>
      cases dbError with
      | some e => rfl
      | none => exact absurd rfl h
  · intro h
    cases auth with
    | failure e => rfl
    | success u =>
      by_cases hc : u.email ∈ (adminEnv.map (fun s => s.splitOn ",")).getD []
      · cases dbError2 with
        | some e => simp [getAllPolls, requireAdmin, hc]
        | none => simp [getAllPolls, requireAdmin, hc] at h
      · simp [getAllPolls, requireAdmin, hc]

theorem C10_error_implies_empty_polls_witness :
    (getUserPolls (.failure "Authentication required") none none).polls = []
    ∧ (getAllPolls (.failure "Authentication required") none none none).polls = [] :=
  ⟨(C10_error_implies_empty_polls (.failure "Authentication required") none none none
      none none).1 (by decide),
   (C10_error_implies_empty_polls (.failure "Authentication required") none none none
      none none).2 (by decide)⟩

/-- Claim C2: for a valid poll id and an authenticated caller,
`requirePollOwnership` fails with "Poll not found" when the poll is absent,
fails with "Access denied" when the poll belongs to someone else, succeeds
exactly when the stored owner is the caller, and the two failure messages
are distinct. -/
theorem C2_ownership_gate (u : User) (pollOwner : String → Option String)
    (pollId : String) (hid : (validatePollId pollId).isValid = true) :
    (pollOwner pollId = none →
      requirePollOwnership (.success u) pollOwner pollId =
        ⟨false, some "Poll not found", none⟩)
    ∧ (∀ o, pollOwner pollId = some o → o ≠ u.id →
      requirePollOwnership (.success u) pollOwner pollId =
        ⟨false, some "Access denied", none⟩)
    ∧ ((requirePollOwnership (.success u) pollOwner pollId).success = true ↔
        pollOwner pollId = some u.id)
    ∧ (some "Poll not found" ≠ (some "Access denied" : Option String)) := by
  refine ⟨?_, ?_, ?_, by decide⟩
  · intro hpo
    simp [requirePollOwnership, hid, hpo]
  · intro o hpo ho
    simp [requirePollOwnership, hid, hpo, ho]
  · cases hpo : pollOwner pollId with
    | none => simp [requirePollOwnership, hid, hpo]
    | some o =>
      by_cases ho : o = u.id <;> simp [requirePollOwnership, hid, hpo, ho]

theorem C2_ownership_gate_witness :
    (requirePollOwnership (.success ⟨"u1", "u1@example.com"⟩) (fun _ => some "u1")
      "123e4567-e89b-12d3-a456-426614174000").success = true :=
  ((C2_ownership_gate ⟨"u1", "u1@example.com"⟩ (fun _ => some "u1")
      "123e4567-e89b-12d3-a456-426614174000" (by decide)).2.2.1).2 rfl

/-- Claim C7 (amended): for inputs valid after sanitization,
`validateCreatePoll` succeeds and returns exactly the sanitized inputs, and
no literal angle bracket survives sanitization.  The original claim's
further conjunct — that no `javascript:` substring remains — is false: the
single-pass removal can splice a new occurrence together (see the
counterexample). -/
theorem C7_valid_input_succeeds (q : String) (opts : List String)
    (hq1 : 1 ≤ (sanitizeString q).length) (hq2 : (sanitizeString q).length ≤ 500)
    (ho1 : 2 ≤ opts.length) (ho2 : opts.length ≤ 10)
    (helem : ∀ o ∈ opts, 1 ≤ (sanitizeString o).length ∧ (sanitizeString o).length ≤ 200)
    (hnodup : (opts.map sanitizeString).Nodup) :
    (validateCreatePoll ⟨q, opts⟩).isValid = true
    ∧ (validateCreatePoll ⟨q, opts⟩).sanitizedData = some (sanitizePollData ⟨q, opts⟩)
    ∧ ('<' ∉ (sanitizeString q).data ∧ '>' ∉ (sanitizeString q).data)
    ∧ ∀ o ∈ opts, '<' ∉ (sanitizeString o).data ∧ '>' ∉ (sanitizeString o).data := by
  have herr : createPollFirstError (sanitizePollData ⟨q, opts⟩) = none := by
    have hfo : firstOptionError (opts.map sanitizeString) = none := by
      refine firstOptionError_eq_none _ ?_
      intro o ho
      rcases List.mem_map.mp ho with ⟨o0, ho0, rfl⟩
      rcases helem o0 ho0 with ⟨h1, h2⟩
      unfold optionError
      rw [if_neg (by omega), if_neg (by omega)]
    unfold createPollFirstError sanitizePollData
    simp only []
    rw [if_neg (by simpa using by omega), if_neg (by simpa using by omega)]
    rw [List.length_map]
    rw [if_neg (by omega), if_neg (by omega)]
    exact hfo
  have hval := validateCreatePoll_eq_of_no_error _ herr
  refine ⟨by rw [hval], by rw [hval], sanitize_no_angles q, fun o _ => sanitize_no_angles o⟩

theorem C7_valid_input_succeeds_witness :
    (validateCreatePoll ⟨"Color?", ["Red", "Blue"]⟩).isValid = true
    ∧ (validateCreatePoll ⟨"Color?", ["Red", "Blue"]⟩).sanitizedData =
        some (sanitizePollData ⟨"Color?", ["Red", "Blue"]⟩)
    ∧ ('<' ∉ (sanitizeString "Color?").data ∧ '>' ∉ (sanitizeString "Color?").data)
    ∧ ∀ o ∈ ["Red", "Blue"], '<' ∉ (sanitizeString o).data ∧ '>' ∉ (sanitizeString o).data :=
  C7_valid_input_succeeds "Color?" ["Red", "Blue"] (by decide) (by decide) (by decide)
    (by decide) (by decide) (by decide)

/-- Claim C7, counterexample to the original statement: the input question
`javajavascript:script:` is valid (its sanitized form has length 11),
`validateCreatePoll` succeeds — yet the sanitized question is exactly
`javascript:`: removing the inner occurrence splices the outer halves into a
new `javascript:` substring. -/
theorem C7_javascript_survives_sanitization :
    (validateCreatePoll ⟨"javajavascript:script:", ["Red", "Blue"]⟩).isValid = true
    ∧ (validateCreatePoll ⟨"javajavascript:script:", ["Red", "Blue"]⟩).sanitizedData =
        some ⟨"javascript:", ["Red", "Blue"]⟩
    ∧ strContains (sanitizeString "javajavascript:script:") "javascript:" = true := by
  refine ⟨by decide, by decide, by decide⟩

/-- Within an active window: starting from a record with count `c ≤ m`, the
k-th further call (0-indexed) returns `true` exactly while `c + k < m`, and
the count is capped at `m` with the reset time unchanged. -/
theorem rateCallSeq_within (key : String) (m w R : Nat) (ts : List Nat) :
    ∀ (store : RateStore) (c : Nat), c ≤ m →
      store key = some ⟨c, R⟩ → (∀ t ∈ ts, t ≤ R) →
      (rateCallSeq key m w store ts).1 =
        (List.range ts.length).map (fun i => decide (c + i < m))
      ∧ (rateCallSeq key m w store ts).2 key = some ⟨min (c + ts.length) m, R⟩ := by
  induction ts with
  | nil =>
    intro store c hc hs _
    refine ⟨rfl, ?_⟩
    simpa [rateCallSeq] using hs ▸ by rw [Nat.min_eq_left hc]
  | cons t ts ih =>
    intro store c hc hs hts
    have ht : ¬ t > R := not_lt.mpr (hts t (List.mem_cons_self t ts))
    by_cases hfull : c ≥ m
    · have hcm : c = m := le_antisymm hc hfull
      have hcheck : checkRateLimit store t key m w = (false, store) := by
        simp [checkRateLimit, hs, ht, hfull]
      have hrec := ih store c hc hs fun t2 h2 => hts t2 (List.mem_cons_of_mem t h2)
      constructor
      · show (checkRateLimit store t key m w).1 ::
            (rateCallSeq key m w (checkRateLimit store t key m w).2 ts).1 = _
        rw [hcheck]
        simp only [List.length_cons]
        rw [List.range_succ_eq_map, List.map_cons, List.map_map]
        subst hcm
        refine congrArg₂ _ (by simp) ?_
        rw [hrec.1]
        exact List.map_congr_left fun i _ => decide_eq_decide.mpr (by omega)
      · show (rateCallSeq key m w (checkRateLimit store t key m w).2 ts).2 key = _
        rw [hcheck]
        rw [hrec.2]
        simp only [List.length_cons, Option.some.injEq, RateRecord.mk.injEq]
        refine ⟨?_, trivial⟩
        rw [Nat.min_def, Nat.min_def]
        split_ifs <;> omega
    · have hlt : c < m := lt_of_not_ge hfull
      have hcheck : checkRateLimit store t key m w =
          (true, store.set key ⟨c + 1, R⟩) := by
        simp [checkRateLimit, hs, ht, hfull]
      have hs2 : (store.set key ⟨c + 1, R⟩) key = some ⟨c + 1, R⟩ := by
        simp [RateStore.set]
      have hrec := ih (store.set key ⟨c + 1, R⟩) (c + 1) hlt hs2
        fun t2 h2 => hts t2 (List.mem_cons_of_mem t h2)
      constructor
      · show (checkRateLimit store t key m w).1 ::
            (rateCallSeq key m w (checkRateLimit store t key m w).2 ts).1 = _
        rw [hcheck]
        simp only [List.length_cons]
        rw [List.range_succ_eq_map, List.map_cons, List.map_map]
        refine congrArg₂ _ (by simpa using hlt) ?_
        rw [hrec.1]
        exact List.map_congr_left fun i _ => decide_eq_decide.mpr (by omega)
      · show (rateCallSeq key m w (checkRateLimit store t key m w).2 ts).2 key = _
        rw [hcheck]
        rw [hrec.2]
        simp only [List.length_cons, Option.some.injEq, RateRecord.mk.injEq]
        refine ⟨?_, trivial⟩
        rw [Nat.min_def, Nat.min_def]
        split_ifs <;> omega

/-- Claim C3: from a fresh store, calls at times `t0, ts` all inside the
window started at `t0` return `true` for the first `m` calls and `false`
afterwards; a later call after the reset time has passed returns `true`
again and starts a new window with count 1. -/
theorem C3_fixed_window_rate_limit (key : String) (m w : Nat) (store : RateStore)
    (t0 : Nat) (ts : List Nat) (tLate : Nat)
    (hm : 1 ≤ m) (hfresh : store key = none)
    (hts : ∀ t ∈ ts, t ≤ t0 + w) (hlate : t0 + w < tLate) :
    (rateCallSeq key m w store (t0 :: ts)).1 =
      (List.range (ts.length + 1)).map (fun i => decide (i < m))
    ∧ (checkRateLimit (rateCallSeq key m w store (t0 :: ts)).2 tLate key m w).1 = true
    ∧ (checkRateLimit (rateCallSeq key m w store (t0 :: ts)).2 tLate key m w).2 key =
        some ⟨1, tLate + w⟩ := by
  have hcheck : checkRateLimit store t0 key m w =
      (true, store.set key ⟨1, t0 + w⟩) := by
    simp [checkRateLimit, hfresh]
  have hs1 : (store.set key ⟨1, t0 + w⟩) key = some ⟨1, t0 + w⟩ := by
    simp [RateStore.set]
  have hrec := rateCallSeq_within key m w (t0 + w) ts
    (store.set key ⟨1, t0 + w⟩) 1 hm hs1 hts
  have hseq1 : (rateCallSeq key m w store (t0 :: ts)).1 =
      (List.range (ts.length + 1)).map (fun i => decide (i < m)) := by
    show (checkRateLimit store t0 key m w).1 ::
        (rateCallSeq key m w (checkRateLimit store t0 key m w).2 ts).1 = _
    rw [hcheck]
    rw [List.range_succ_eq_map, List.map_cons, List.map_map]
    refine congrArg₂ _ (by simpa using hm) ?_
    rw [hrec.1]
    exact List.map_congr_left fun i _ => decide_eq_decide.mpr (by omega)
  have hseq2 : (rateCallSeq key m w store (t0 :: ts)).2 key =
      some ⟨min (1 + ts.length) m, t0 + w⟩ := by
    show (rateCallSeq key m w (checkRateLimit store t0 key m w).2 ts).2 key = _
    rw [hcheck]
    exact hrec.2
  refine ⟨hseq1, ?_, ?_⟩ <;> simp [checkRateLimit, hseq2, hlate, RateStore.set]

theorem C3_fixed_window_rate_limit_witness :
    (rateCallSeq "k" 3 100 (fun _ => none) [0, 1, 2, 3]).1 =
      (List.range 4).map (fun i => decide (i < 3))
    ∧ (checkRateLimit (rateCallSeq "k" 3 100 (fun _ => none) [0, 1, 2, 3]).2 500 "k" 3 100).1 =
        true
    ∧ (checkRateLimit (rateCallSeq "k" 3 100 (fun _ => none) [0, 1, 2, 3]).2 500 "k" 3 100).2
        "k" = some ⟨1, 600⟩ :=
  C3_fixed_window_rate_limit "k" 3 100 (fun _ => none) 0 [1, 2, 3] 500
    (by decide) rfl (by decide) (by decide)

/-- Claim C9: with a fixed limit `m ≥ 1` for a key, a `checkRateLimit` call
keeps the stored count at or below `m`; moreover once the count has reached
`m` inside the window the call returns `false` and leaves the store
untouched, so the counter is frozen at the limit. -/
theorem C9_count_bounded_by_limit (store : RateStore) (now : Nat) (key : String)
    (m w : Nat) (hm : 1 ≤ m)
    (hinv : ∀ r, store key = some r → r.count ≤ m) :
    (∀ r, (checkRateLimit store now key m w).2 key = some r → r.count ≤ m)
    ∧ (∀ R, store key = some ⟨m, R⟩ → now ≤ R →
        checkRateLimit store now key m w = (false, store)) := by
  constructor
  · intro r hr
    cases hrec : store key with
    | none =>
      have hcheck : checkRateLimit store now key m w =
          (true, store.set key ⟨1, now + w⟩) := by
        simp [checkRateLimit, hrec]
      rw [hcheck] at hr
      have heq : some (⟨1, now + w⟩ : RateRecord) = some r := by
        simpa [RateStore.set] using hr
      cases heq
      exact hm
    | some record =>
      have hcount := hinv record hrec
      by_cases hexp : now > record.resetTime
      · have hcheck : checkRateLimit store now key m w =
            (true, store.set key ⟨1, now + w⟩) := by
          simp [checkRateLimit, hrec, hexp]
        rw [hcheck] at hr
        have heq : some (⟨1, now + w⟩ : RateRecord) = some r := by
          simpa [RateStore.set] using hr
        cases heq
        exact hm
      · by_cases hfull : record.count ≥ m
        · have hcheck : checkRateLimit store now key m w = (false, store) := by
            simp [checkRateLimit, hrec, hexp, hfull]
          rw [hcheck] at hr
          exact hinv r hr
        · have hcheck : checkRateLimit store now key m w =
              (true, store.set key ⟨record.count + 1, record.resetTime⟩) := by
            simp [checkRateLimit, hrec, hexp, hfull]
          rw [hcheck] at hr
          have heq : some (⟨record.count + 1, record.resetTime⟩ : RateRecord) = some r := by
            simpa [RateStore.set] using hr
          cases heq
          show record.count + 1 ≤ m
          omega
  · intro R hs hnow
    simp [checkRateLimit, hs, Nat.not_lt.mpr hnow]

theorem C9_count_bounded_by_limit_witness :
    (∀ r, (checkRateLimit (fun _ => some ⟨3, 50⟩) 10 "k" 3 100).2 "k" = some r →
      r.count ≤ 3)
    ∧ (∀ R, (fun _ => some (⟨3, 50⟩ : RateRecord)) "k" = some ⟨3, R⟩ → 10 ≤ R →
        checkRateLimit (fun _ => some ⟨3, 50⟩) 10 "k" 3 100 =
          (false, fun _ => some ⟨3, 50⟩)) :=
  C9_count_bounded_by_limit (fun _ => some ⟨3, 50⟩) 10 "k" 3 100 (by decide)
    (fun r hr => by cases hr; decide)

/-- Claim C4, counterexample to the original statement: with an option index
past the end, `submitVote` fails — but the error kind depends on whether the
poll exists: "Poll not found" when it does not, "Invalid option selected"
when it does, so the same error kind is NOT returned in both cases. -/
theorem C4_error_kind_depends_on_existence :
    (submitVote ⟨fun _ => none, 0, fun _ => none, none, fun _ _ => false, none⟩
        "123e4567-e89b-12d3-a456-426614174000" 5).1.error = some "Poll not found"
    ∧ (submitVote ⟨fun _ => none, 0, fun _ => some ⟨["Red", "Blue"]⟩, none,
          fun _ _ => false, none⟩
        "123e4567-e89b-12d3-a456-426614174000" 5).1.error = some "Invalid option selected"
    ∧ some "Poll not found" ≠ (some "Invalid option selected" : Option String) := by
  refine ⟨by decide, by decide, by decide⟩

/-- Claim C4 (amended): past the rate check and `validateVote`, an option
index `>= len(poll.options)` makes `submitVote` fail with the
"Invalid option selected" validation error when the poll exists, and with
"Poll not found" when it does not — it always fails, but the error kind
depends on the poll's existence, with nothing inserted either way. -/
theorem C4_out_of_range_vote_fails (env : VoteEnv) (pollId : String) (optionIndex : Int)
    (hrate : (checkRateLimit env.rateStore env.now ("vote_" ++ pollId) 5 60000).1 = true)
    (hvalid : (validateVote pollId optionIndex).isValid = true) :
    (∀ poll, env.polls pollId = some poll →
      (poll.options.length : Int) ≤ optionIndex →
      (submitVote env pollId optionIndex).1 = ⟨some "Invalid option selected", none⟩)
    ∧ (env.polls pollId = none →
      (submitVote env pollId optionIndex).1 = ⟨some "Poll not found", none⟩) := by
  constructor
  · intro poll hpoll hle
    simp only [submitVote, hrate, hvalid, hpoll, Bool.not_true, Bool.false_eq_true,
      if_false]
    rw [if_pos (Or.inr hle)]
  · intro hpoll
    simp only [submitVote, hrate, hvalid, hpoll, Bool.not_true, Bool.false_eq_true,
      if_false]

theorem C4_out_of_range_vote_fails_witness :
    (submitVote ⟨fun _ => none, 0, fun _ => some ⟨["Red", "Blue"]⟩, none,
        fun _ _ => false, none⟩ "123e4567-e89b-12d3-a456-426614174000" 5).1 =
      ⟨some "Invalid option selected", none⟩ :=
  (C4_out_of_range_vote_fails
      ⟨fun _ => none, 0, fun _ => some ⟨["Red", "Blue"]⟩, none, fun _ _ => false, none⟩
      "123e4567-e89b-12d3-a456-426614174000" 5 (by decide) (by decide)).1
    ⟨["Red", "Blue"]⟩ rfl (by decide)

/-- Claim C5: once the poll is found and the index is in range, an
authenticated caller with an existing vote on the poll gets the
already-voted conflict error and nothing is inserted; otherwise exactly one
vote row is inserted whose `user_id` is the caller's id when authenticated
and null when anonymous (the duplicate check is skipped for anonymous
callers). -/
theorem C5_duplicate_vote_conflict (env : VoteEnv) (pollId : String) (optionIndex : Int)
    (poll : Poll)
    (hrate : (checkRateLimit env.rateStore env.now ("vote_" ++ pollId) 5 60000).1 = true)
    (hvalid : (validateVote pollId optionIndex).isValid = true)
    (hpoll : env.polls pollId = some poll)
    (hidx : ¬(optionIndex < 0 ∨ (poll.options.length : Int) ≤ optionIndex)) :
    (∀ u, env.user = some u → env.hasVoted pollId u.id = true →
      (submitVote env pollId optionIndex).1 =
        ⟨some "You have already voted on this poll", none⟩)
    ∧ (∀ u, env.user = some u → env.hasVoted pollId u.id = false → env.insertError = none →
      (submitVote env pollId optionIndex).1 =
        ⟨none, some ⟨pollId, some u.id, optionIndex⟩⟩)
    ∧ (env.user = none → env.insertError = none →
      (submitVote env pollId optionIndex).1 =
        ⟨none, some ⟨pollId, none, optionIndex⟩⟩) := by
  refine ⟨?_, ?_, ?_⟩
  · intro u hu hv
    simp only [submitVote, hrate, hvalid, hpoll, Bool.not_true, Bool.false_eq_true,
      if_false]
    rw [if_neg hidx]
    simp [hu, hv]
  · intro u hu hv hins
    simp only [submitVote, hrate, hvalid, hpoll, Bool.not_true, Bool.false_eq_true,
      if_false]
    rw [if_neg hidx]
    simp [hu, hv, hins]
  · intro hu hins
    simp only [submitVote, hrate, hvalid, hpoll, Bool.not_true, Bool.false_eq_true,
      if_false]
    rw [if_neg hidx]
    simp [hu, hins]

theorem C5_duplicate_vote_conflict_witness :
    (submitVote ⟨fun _ => none, 0, fun _ => some ⟨["Red", "Blue"]⟩,
        some ⟨"u1", "u1@example.com"⟩, fun _ _ => true, none⟩
      "123e4567-e89b-12d3-a456-426614174000" 0).1 =
      ⟨some "You have already voted on this poll", none⟩ :=
  ((C5_duplicate_vote_conflict
      ⟨fun _ => none, 0, fun _ => some ⟨["Red", "Blue"]⟩,
        some ⟨"u1", "u1@example.com"⟩, fun _ _ => true, none⟩
      "123e4567-e89b-12d3-a456-426614174000" 0 ⟨["Red", "Blue"]⟩
      (by decide) (by decide) rfl (by decide)).1)
    ⟨"u1", "u1@example.com"⟩ rfl rfl

/-- Claim C8, counterexample to the original statement: `createPoll` checks
authentication BEFORE validation.  With the rate check passing, an invalid
(empty) question and an unauthenticated caller, the returned error is the
authentication error — under the claimed order RATE_CHECK, VALIDATE,
AUTHORIZE the first failing stage would be validation and the validation
message would be returned instead. -/
theorem C8_auth_checked_before_validation :
    (createPoll ⟨fun _ => none, 0, "ip", .failure "Authentication required", none⟩
        "" ["A", "B"]).1.error = some "Authentication required"
    ∧ (validateCreatePoll ⟨"", ["A", "B"]⟩).isValid = false := by
  refine ⟨by decide, by decide⟩

/-- Claim C8 (amended): `createPoll` is a linear early-exit pipeline in the
order RATE_CHECK, AUTHORIZE, VALIDATE, PERSIST: a row is inserted only when
the rate check, authentication, validation, and the insert itself all
succeed, and the first failing stage in that order determines the returned
error. -/
theorem C8_pipeline_order (env : CreatePollEnv) (question : String)
    (options : List String) :
    ((createPoll env question options).1.inserted.isSome = true →
      createPollRateOk env = true ∧ (∃ u, env.auth = .success u)
      ∧ (validateCreatePoll ⟨question, options⟩).isValid = true
      ∧ env.insertError = none)
    ∧ (createPollRateOk env = false →
      (createPoll env question options).1 =
        ⟨some "Too many requests. Please try again later.", none⟩)
    ∧ (∀ e, createPollRateOk env = true → env.auth = .failure e →
      (createPoll env question options).1 = ⟨some e, none⟩)
    ∧ (∀ u, createPollRateOk env = true → env.auth = .success u →
      (validateCreatePoll ⟨question, options⟩).isValid = false →
      (createPoll env question options).1 =
        ⟨(validateCreatePoll ⟨question, options⟩).error, none⟩) := by
  have hdata := validateCreatePoll_sanitizedData_isValid ⟨question, options⟩
  refine ⟨?_, ?_, ?_, ?_⟩
  · intro h
    cases hr : createPollRateOk env with
    | false =>
      rw [show (createPoll env question options) =
          (⟨some "Too many requests. Please try again later.", none⟩,
            (checkRateLimit env.rateStore env.now
              ("create_poll_" ++ env.clientIP) 10 300000).2) from by
        simp [createPoll, createPollRateOk] at hr ⊢
        simp [hr]] at h
      simp at h
    | true =>
      cases hauth : env.auth with
      | failure e =>
        simp only [createPoll] at h
        rw [show (checkRateLimit env.rateStore env.now
            ("create_poll_" ++ env.clientIP) 10 300000).1 = true from hr] at h
        simp [hauth] at h
      | success u =>
        refine ⟨rfl, ⟨u, rfl⟩, ?_⟩
        simp only [createPoll] at h
        rw [show (checkRateLimit env.rateStore env.now
            ("create_poll_" ++ env.clientIP) 10 300000).1 = true from hr] at h
        simp only [hauth, Bool.not_true, Bool.false_eq_true, if_false] at h
        cases hsd : (validateCreatePoll ⟨question, options⟩).sanitizedData with
        | none => rw [hsd] at h; simp at h
        | some s =>
          rw [hsd] at h
          cases hins : env.insertError with
          | some e => rw [hins] at h; simp at h
          | none =>
            refine ⟨?_, rfl⟩
            rw [hsd] at hdata
            by_cases hv : (validateCreatePoll ⟨question, options⟩).isValid
            · exact hv
            · simp [hv] at hdata
  · intro hr
    simp only [createPoll]
    rw [show (checkRateLimit env.rateStore env.now
        ("create_poll_" ++ env.clientIP) 10 300000).1 = false from hr]
    simp
  · intro e hr hauth
    simp only [createPoll]
    rw [show (checkRateLimit env.rateStore env.now
        ("create_poll_" ++ env.clientIP) 10 300000).1 = true from hr]
    simp [hauth]
  · intro u hr hauth hv
    simp only [createPoll]
    rw [show (checkRateLimit env.rateStore env.now
        ("create_poll_" ++ env.clientIP) 10 300000).1 = true from hr]
    simp only [hauth, Bool.not_true, Bool.false_eq_true, if_false]
    rw [hdata, hv]
    simp

theorem C8_pipeline_order_witness :
    (createPoll ⟨fun _ => none, 0, "ip", .failure "Authentication required", none⟩
        "Q?" ["A", "B"]).1 = ⟨some "Authentication required", none⟩ :=
  (C8_pipeline_order
      ⟨fun _ => none, 0, "ip", .failure "Authentication required", none⟩
      "Q?" ["A", "B"]).2.2.1 "Authentication required" rfl rfl

end Polly
